import Mathlib

/-!
Shallow embedding of the rust link-shortener service (src/routes.rs,
src/utils.rs).  Pure data is modelled directly; the datastore is a pair of
lists (links table, link_statistics table); the nondeterministic outcome of
each timed sqlx call (timeout from tokio, backend error from sqlx) is an
explicit `Option Fault` parameter of the handler; the `url` crate parse and
serialize step is a parameter `parse : String -> Option String` returning the
normalized string on success, so every theorem holds for the real parser.
-/

namespace LinkShortener

/-- Row of the links table: struct Link in routes.rs. -/
structure Link where
  id : String
  target_url : String
deriving DecidableEq, Repr

/-- Row of the link_statistics table inserted by the redirect handler. -/
structure ClickEvent where
  link_id : String
  referer : Option String
  user_agent : Option String
deriving DecidableEq, Repr

/-- struct CountedLinkStatistic in routes.rs: count(*) is Option of i64. -/
structure CountedLinkStatistic where
  amount : Option Int
  referer : Option String
  user_agent : Option String
deriving DecidableEq, Repr

/-- Environmental outcome of one timed datastore call: tokio elapsed timeout
or a backend error carrying the sqlx display message. -/
inductive Fault where
  | timeout
  | backend (msg : String)
deriving DecidableEq, Repr

/-- Display text of tokio time Elapsed. -/
def elapsedMsg : String := "deadline has elapsed"

/-- Display text of sqlx Error RowNotFound. -/
def row_not_found_message : String :=
  "no rows returned by a query that expected to return at least one row"

/-- Message carried by a fault, as each handler sees it through map_err. -/
def fault_message : Fault → String
  | Fault.timeout => elapsedMsg
  | Fault.backend m => m

/-- utils.rs internal_error: logs, counts, returns 500 with the display text. -/
def internal_error (e : String) : Nat × String := (500, e)

/-- DEFAULT_CACHE_CONTROL_HEADER_VALUE in routes.rs. -/
def DEFAULT_CACHE_CONTROL_HEADER_VALUE : String :=
  "public, max-age=300, s-maxage=300, stale-while-revalidate=300, stale-if-error=300"

/-! ## Identifier generator -/

/-- u32 MAX. -/
def u32MAX : Nat := 4294967295

/-- The value n is a possible result of rand gen_range over the half open
range lo..hi, as generate_id calls it with 0..u32MAX. -/
def genRangePossible (lo hi n : Nat) : Prop := lo ≤ n ∧ n < hi

instance (lo hi n : Nat) : Decidable (genRangePossible lo hi n) :=
  inferInstanceAs (Decidable (lo ≤ n ∧ n < hi))

/-- Little-endian base-10 digits of n, with fuel for structural recursion;
fuel at least n is enough since the argument shrinks by division by 10. -/
def digitsAuxTen : Nat → Nat → List Nat
  | 0, _ => []
  | _ + 1, 0 => []
  | fuel + 1, n + 1 => ((n + 1) % 10) :: digitsAuxTen fuel ((n + 1) / 10)

/-- Bytes of the Rust u32 to_string decimal representation of n. -/
def decimalBytes (n : Nat) : List Nat :=
  if n = 0 then [48] else ((digitsAuxTen n n).reverse).map (fun d => d + 48)

/-- URL safe base64 alphabet of the base64 crate. -/
def b64Alphabet : String :=
  "ABCDEFGHIJKLMNOPQRSTUVWXYZabcdefghijklmnopqrstuvwxyz0123456789-_"

/-- Character at sextet value i in the URL safe alphabet. -/
def b64Char (i : Nat) : Char := b64Alphabet.toList.getD i 'A'

/-- URL_SAFE_NO_PAD encoding of a byte list: three input bytes become four
output characters, a trailing byte two, two trailing bytes three. -/
def b64EncodeBytes : List Nat → List Char
  | [] => []
  | [b0] => [b64Char (b0 / 4), b64Char (b0 % 4 * 16)]
  | [b0, b1] => [b64Char (b0 / 4), b64Char (b0 % 4 * 16 + b1 / 16), b64Char (b1 % 16 * 4)]
  | b0 :: b1 :: b2 :: rest =>
      b64Char (b0 / 4) :: b64Char (b0 % 4 * 16 + b1 / 16) ::
        b64Char (b1 % 16 * 4 + b2 / 64) :: b64Char (b2 % 64) :: b64EncodeBytes rest

/-- generate_id in routes.rs, as a function of the random draw n: the URL
safe no padding base64 encoding of the decimal text of n. -/
def generate_id (n : Nat) : String := String.mk (b64EncodeBytes (decimalBytes n))

/-! ## Header decoding (http HeaderValue to_str) -/

/-- http crate check used by HeaderValue to_str: visible ascii or tab. -/
def is_visible_ascii (b : Nat) : Bool := (32 ≤ b && b < 127) || b == 9

/-- HeaderValue to_str: some string when every byte is visible ascii,
none otherwise. -/
def header_to_str (bs : List Nat) : Option String :=
  if bs.all is_visible_ascii then some (String.mk (bs.map Char.ofNat)) else none

/-- headers.get(name).map(to_str().unwrap_or_default().to_string()) in the
redirect handler: an absent header stays none, a present one that fails
to_str is coerced to the empty string. -/
def extract_header (h : Option (List Nat)) : Option String :=
  h.map (fun v => (header_to_str v).getD "")

/-- The referer and user-agent request headers, each an optional byte list. -/
structure HeaderMap where
  referer : Option (List Nat)
  user_agent : Option (List Nat)

/-! ## Link store handlers -/

/-- SELECT id, target_url FROM links WHERE id = $1 (fetch_optional). -/
def fetch_link (links : List Link) (link_id : String) : Option Link :=
  links.find? (fun l => l.id == link_id)

/-- create_link handler: parse the URL (409 on failure, before any datastore
call), then insert the new row and return it.  The random id is the
parameter new_id; fault is the outcome of the timed insert.  Returns the new
links table, the response, and whether a datastore call was attempted. -/
def create_link (parse : String → Option String) (target new_id : String)
    (links : List Link) (fault : Option Fault) :
    List Link × Except (Nat × String) Link × Bool :=
  match parse target with
  | none => (links, Except.error (409, "url malformed"), false)
  | some url =>
    match fault with
    | some f => (links, Except.error (internal_error (fault_message f)), true)
    | none => (⟨new_id, url⟩ :: links, Except.ok ⟨new_id, url⟩, true)

/-- Row transformation of UPDATE links SET target_url = $1 WHERE id = $2. -/
def apply_update (link_id url : String) (l : Link) : Link :=
  if l.id == link_id then ⟨l.id, url⟩ else l

/-- update_link handler: parse the URL (409 on failure, before any datastore
call), then run the updating CTE; fetch_one of zero returned rows is the
sqlx RowNotFound error, mapped through internal_error. -/
def update_link (parse : String → Option String) (link_id target : String)
    (links : List Link) (fault : Option Fault) :
    List Link × Except (Nat × String) Link × Bool :=
  match parse target with
  | none => (links, Except.error (409, "url malformed"), false)
  | some url =>
    match fault with
    | some f => (links, Except.error (internal_error (fault_message f)), true)
    | none =>
      if links.any (fun l => l.id == link_id) then
        (links.map (apply_update link_id url), Except.ok ⟨link_id, url⟩, true)
      else
        (links, Except.error (internal_error row_not_found_message), true)

/-! ## Redirect handler -/

/-- The successful redirect response: status plus the two headers set. -/
structure RedirectResponse where
  status : Nat
  location : String
  cache_control : String
deriving DecidableEq, Repr

/-- redirect handler.  lookup_fault is the outcome of the timed fetch (500
through internal_error on timeout or backend error); a missing row is 404
Not Found; on success the click insert runs (its own fault swallowed, only
the statistics table reflects it) and the 307 response carries Location and
the fixed Cache-Control value. -/
def redirect (requested_link : String) (headers : HeaderMap)
    (links : List Link) (stats : List ClickEvent)
    (lookup_fault insert_fault : Option Fault) :
    List ClickEvent × Except (Nat × String) RedirectResponse :=
  match lookup_fault with
  | some f => (stats, Except.error (internal_error (fault_message f)))
  | none =>
    match fetch_link links requested_link with
    | none => (stats, Except.error (404, "Not Found"))
    | some link =>
      let referer_header := extract_header headers.referer
      let user_agent_header := extract_header headers.user_agent
      let stats1 :=
        match insert_fault with
        | some _ => stats
        | none => ⟨requested_link, referer_header, user_agent_header⟩ :: stats
      (stats1, Except.ok ⟨307, link.target_url, DEFAULT_CACHE_CONTROL_HEADER_VALUE⟩)

/-! ## Statistics -/

/-- One click row appended by a successful statistics insert. -/
def record_click (stats : List ClickEvent) (link_id : String)
    (r ua : Option String) : List ClickEvent :=
  ⟨link_id, r, ua⟩ :: stats

/-- count(*) of the group of link_id, referer, user_agent. -/
def group_count (stats : List ClickEvent) (link_id : String)
    (r ua : Option String) : Nat :=
  (stats.filter (fun e => e.link_id == link_id && e.referer == r && e.user_agent == ua)).length

/-- The distinct referer and user_agent pairs among clicks of link_id. -/
def click_keys (stats : List ClickEvent) (link_id : String) :
    List (Option String × Option String) :=
  (((stats.filter (fun e => e.link_id == link_id)).map
    (fun e => (e.referer, e.user_agent)))).dedup

/-- The group-by query of get_link_statistics: one counted row per distinct
referer and user_agent pair of the link, order unspecified. -/
def aggregate (stats : List ClickEvent) (link_id : String) :
    List CountedLinkStatistic :=
  (click_keys stats link_id).map
    (fun k => ⟨some (Int.ofNat (group_count stats link_id k.1 k.2)), k.1, k.2⟩)

/-- get_link_statistics handler: timed query, fault mapped through
internal_error, otherwise the aggregation result. -/
def get_link_statistics (stats : List ClickEvent) (link_id : String)
    (fault : Option Fault) : Except (Nat × String) (List CountedLinkStatistic) :=
  match fault with
  | some f => Except.error (internal_error (fault_message f))
  | none => Except.ok (aggregate stats link_id)

/-! ## Helper lemmas -/

/-- apply_update never changes the id column of a row. -/
theorem apply_update_id (link_id url : String) (l : Link) :
    (apply_update link_id url l).id = l.id := by
  unfold apply_update
  split <;> rfl

/-- Mapping the update over the table does not change which ids are present. -/
theorem any_map_apply_update (link_id url : String) (links : List Link) :
    (links.map (apply_update link_id url)).any (fun l => l.id == link_id)
      = links.any (fun l => l.id == link_id) := by
  induction links with
  | nil => rfl
  | cons hd tl ih => simp [List.any_cons, apply_update_id, ih]

/-- After the update runs, looking the id up finds the rewritten row. -/
theorem find?_map_apply_update (link_id url : String) (links : List Link)
    (h : links.any (fun l => l.id == link_id) = true) :
    (links.map (apply_update link_id url)).find? (fun l => l.id == link_id)
      = some ⟨link_id, url⟩ := by
  induction links with
  | nil => simp at h
  | cons hd tl ih =>
    by_cases hh : hd.id = link_id
    · simp [apply_update, hh]
    · have htl : tl.any (fun l => l.id == link_id) = true := by
        simp [List.any_cons, hh] at h
        simpa using h
      simp [apply_update, hh, ih htl]

/-- The id column of the whole table is untouched by the update. -/
theorem ids_map_apply_update (link_id url : String) (links : List Link) :
    (links.map (apply_update link_id url)).map Link.id = links.map Link.id := by
  induction links with
  | nil => rfl
  | cons hd tl ih => simp [apply_update_id, ih]

/-- The fueled digit computation agrees with Mathlib digits in base ten
whenever the fuel is at least the argument. -/
theorem digitsAuxTen_eq_digits : ∀ (n fuel : Nat), n ≤ fuel →
    digitsAuxTen fuel n = Nat.digits 10 n
  | 0, 0, _ => by simp [digitsAuxTen]
  | 0, _ + 1, _ => by simp [digitsAuxTen]
  | _ + 1, 0, h => absurd h (by omega)
  | n + 1, fuel + 1, h => by
    have ih := digitsAuxTen_eq_digits ((n + 1) / 10) fuel (by omega)
    simp only [digitsAuxTen, ih]
    rw [Nat.digits_def' (show (1:Nat) < 10 by norm_num) (Nat.succ_pos n)]

/-- The decimal text of a number below ten to the tenth has one to ten
characters. -/
theorem decimalBytes_length_bounds (n : Nat) (h : n < 10 ^ 10) :
    1 ≤ (decimalBytes n).length ∧ (decimalBytes n).length ≤ 10 := by
  unfold decimalBytes
  split
  · simp
  · rename_i hn
    rw [List.length_map, List.length_reverse, digitsAuxTen_eq_digits n n le_rfl]
    refine ⟨?_, ?_⟩
    · exact List.length_pos.mpr (Nat.digits_ne_nil_iff_ne_zero.mpr hn)
    · have hlen := Nat.digits_len 10 n (by norm_num) hn
      have hlog := Nat.log_lt_of_lt_pow hn h
      omega

/-- Length of the unpadded base64 encoding of k bytes. -/
theorem b64EncodeBytes_length : ∀ (l : List Nat),
    (b64EncodeBytes l).length = (4 * l.length + 2) / 3
  | [] => rfl
  | [_] => by simp [b64EncodeBytes]
  | [_, _] => by simp [b64EncodeBytes]
  | _ :: _ :: _ :: rest => by
    simp only [b64EncodeBytes, List.length_cons, b64EncodeBytes_length rest]
    omega

end LinkShortener

namespace LinkShortener

/-! ## Claim theorems -/

/-- C1: whenever the redirect lookup resolves the id to a stored link, the
response is 307 with Location exactly the stored target_url and
Cache-Control exactly the fixed constant, for every outcome of the click
recording insert (success, timeout or backend error). -/
theorem C1_redirect_response_fixed (requested_link : String) (headers : HeaderMap)
    (links : List Link) (stats : List ClickEvent) (link : Link)
    (insert_fault : Option Fault)
    (h : fetch_link links requested_link = some link) :
    (redirect requested_link headers links stats none insert_fault).2
      = Except.ok ⟨307, link.target_url, DEFAULT_CACHE_CONTROL_HEADER_VALUE⟩ := by
  cases insert_fault <;> simp [redirect, h]

/-- C1 witness at a concrete table and a timed-out click insert. -/
theorem C1_redirect_response_fixed_witness :
    (redirect "a" ⟨none, none⟩ [⟨"a", "https://example.com/"⟩] [] none
        (some Fault.timeout)).2
      = Except.ok ⟨307, "https://example.com/", DEFAULT_CACHE_CONTROL_HEADER_VALUE⟩ :=
  C1_redirect_response_fixed "a" ⟨none, none⟩ [⟨"a", "https://example.com/"⟩] []
    ⟨"a", "https://example.com/"⟩ (some Fault.timeout) rfl

/-- C3: a target string the URL parser rejects makes both create and update
answer 409 with body url malformed, with no datastore call attempted and the
links table unchanged, whatever fault the (never reached) datastore call
would have had. -/
theorem C3_malformed_url_rejected (parse : String → Option String)
    (target new_id link_id : String) (links : List Link) (f1 f2 : Option Fault)
    (h : parse target = none) :
    create_link parse target new_id links f1
      = (links, Except.error (409, "url malformed"), false) ∧
    update_link parse link_id target links f2
      = (links, Except.error (409, "url malformed"), false) := by
  constructor <;> simp [create_link, update_link, h]

/-- C3 witness with a parser rejecting the input. -/
theorem C3_malformed_url_rejected_witness :
    create_link (fun _ => none) "not a url" "id1" [] none
      = ([], Except.error (409, "url malformed"), false) ∧
    update_link (fun _ => none) "id1" "not a url" [] none
      = ([], Except.error (409, "url malformed"), false) :=
  C3_malformed_url_rejected (fun _ => none) "not a url" "id1" "id1" [] none none rfl

/-- C2: creating a link from a URL the parser normalizes to nu stores and
returns the row with the fresh id and normalized target, and fetching that
id afterwards yields target_url equal to nu. -/
theorem C2_create_fetch_roundtrip (parse : String → Option String)
    (u nu new_id : String) (links : List Link)
    (h : parse u = some nu) :
    create_link parse u new_id links none
      = (⟨new_id, nu⟩ :: links, Except.ok ⟨new_id, nu⟩, true) ∧
    (fetch_link (create_link parse u new_id links none).1 new_id).map Link.target_url
      = some nu := by
  constructor <;> simp [create_link, fetch_link, h]

/-- C2 witness with an identity-like parser. -/
theorem C2_create_fetch_roundtrip_witness :
    create_link (fun s => some s) "https://example.com/" "id1" [] none
      = ([⟨"id1", "https://example.com/"⟩],
          Except.ok ⟨"id1", "https://example.com/"⟩, true) ∧
    (fetch_link (create_link (fun s => some s) "https://example.com/" "id1" [] none).1
        "id1").map Link.target_url
      = some "https://example.com/" :=
  C2_create_fetch_roundtrip (fun s => some s) "https://example.com/"
    "https://example.com/" "id1" [] rfl

/-- C6: the redirect resolution step: a completed lookup with no row answers
404 Not Found and records no click; a timeout or backend error answers 500
through internal_error and records no click; only a found row leads to the
307 response. -/
theorem C6_redirect_resolution_branches (requested_link : String)
    (headers : HeaderMap) (links : List Link) (stats : List ClickEvent)
    (insert_fault : Option Fault) :
    (fetch_link links requested_link = none →
      redirect requested_link headers links stats none insert_fault
        = (stats, Except.error (404, "Not Found"))) ∧
    (redirect requested_link headers links stats (some Fault.timeout) insert_fault
        = (stats, Except.error (internal_error elapsedMsg))) ∧
    (∀ m, redirect requested_link headers links stats (some (Fault.backend m)) insert_fault
        = (stats, Except.error (internal_error m))) ∧
    (∀ link, fetch_link links requested_link = some link →
      (redirect requested_link headers links stats none insert_fault).2
        = Except.ok ⟨307, link.target_url, DEFAULT_CACHE_CONTROL_HEADER_VALUE⟩) := by
  refine ⟨fun h => ?_, ?_, fun m => ?_, fun link h => ?_⟩ <;>
    cases insert_fault <;> simp [redirect, fault_message, *]

/-- C6 witness exercising all four branches concretely. -/
theorem C6_redirect_resolution_branches_witness :
    redirect "x" ⟨none, none⟩ [] [] none none
      = ([], Except.error (404, "Not Found")) ∧
    redirect "x" ⟨none, none⟩ [] [] (some Fault.timeout) none
      = ([], Except.error (internal_error elapsedMsg)) ∧
    redirect "x" ⟨none, none⟩ [] [] (some (Fault.backend "db down")) none
      = ([], Except.error (internal_error "db down")) ∧
    (redirect "a" ⟨none, none⟩ [⟨"a", "https://t/"⟩] [] none none).2
      = Except.ok ⟨307, "https://t/", DEFAULT_CACHE_CONTROL_HEADER_VALUE⟩ :=
  ⟨(C6_redirect_resolution_branches "x" ⟨none, none⟩ [] [] none).1 rfl,
   (C6_redirect_resolution_branches "x" ⟨none, none⟩ [] [] none).2.1,
   (C6_redirect_resolution_branches "x" ⟨none, none⟩ [] [] none).2.2.1 "db down",
   (C6_redirect_resolution_branches "a" ⟨none, none⟩ [⟨"a", "https://t/"⟩] [] none).2.2.2
     ⟨"a", "https://t/"⟩ rfl⟩

/-- C7: updating an id that matches no stored row with a well formed URL
surfaces the generic sqlx row-not-found error through internal_error as a
500, not a 404, and leaves the links table unchanged. -/
theorem C7_update_missing_id (parse : String → Option String)
    (link_id u nu : String) (links : List Link)
    (h1 : parse u = some nu) (h2 : fetch_link links link_id = none) :
    update_link parse link_id u links none
      = (links, Except.error (internal_error row_not_found_message), true) := by
  have hany : links.any (fun l => l.id == link_id) = false := by
    rw [fetch_link, List.find?_eq_none] at h2
    simp only [List.any_eq_false]
    exact h2
  simp [update_link, h1, hany]

/-- C7 witness on an empty table. -/
theorem C7_update_missing_id_witness :
    update_link (fun s => some s) "z" "https://example.com/" [] none
      = ([], Except.error (internal_error row_not_found_message), true) :=
  C7_update_missing_id (fun s => some s) "z" "https://example.com/"
    "https://example.com/" [] rfl rfl

/-- C10: a present referer header whose bytes fail the visible-ascii check
of to_str is recorded as the empty string, not as null and not as an error,
while an absent header is recorded as null. -/
theorem C10_undecodable_header_empty (requested_link : String)
    (bs : List Nat) (ua : Option (List Nat))
    (links : List Link) (stats : List ClickEvent) (link : Link)
    (h1 : fetch_link links requested_link = some link)
    (h2 : bs.all is_visible_ascii = false) :
    (redirect requested_link ⟨some bs, ua⟩ links stats none none).1
      = ⟨requested_link, some "", extract_header ua⟩ :: stats ∧
    extract_header (some bs) = some "" ∧
    extract_header (none : Option (List Nat)) = none := by
  have h3 : ¬ ∀ x ∈ bs, is_visible_ascii x = true := by simpa using h2
  refine ⟨?_, ?_, rfl⟩ <;> simp [redirect, h1, extract_header, header_to_str, h3]

/-- C10 witness: one stored link, a referer of a single invalid byte. -/
theorem C10_undecodable_header_empty_witness :
    (redirect "a" ⟨some [0], none⟩ [⟨"a", "https://t/"⟩] [] none none).1
      = [⟨"a", some "", none⟩] ∧
    extract_header (some [0]) = some "" ∧
    extract_header (none : Option (List Nat)) = none :=
  C10_undecodable_header_empty "a" [0] none [⟨"a", "https://t/"⟩] []
    ⟨"a", "https://t/"⟩ rfl rfl

/-- C8: for an existing id and a URL the parser normalizes to nu, two
successive updates both succeed with the same returned row, the final fetch
yields target_url nu, and the id column of the table is unchanged by both
updates. -/
theorem C8_update_idempotent (parse : String → Option String)
    (link_id u nu : String) (links : List Link)
    (h1 : parse u = some nu)
    (h2 : links.any (fun l => l.id == link_id) = true) :
    ∃ links1 links2,
      update_link parse link_id u links none
        = (links1, Except.ok ⟨link_id, nu⟩, true) ∧
      update_link parse link_id u links1 none
        = (links2, Except.ok ⟨link_id, nu⟩, true) ∧
      fetch_link links2 link_id = some ⟨link_id, nu⟩ ∧
      links2.map Link.id = links.map Link.id := by
  have h2b : ((links.map (apply_update link_id nu)).any fun l => l.id == link_id) = true := by
    rw [any_map_apply_update]
    exact h2
  refine ⟨links.map (apply_update link_id nu),
    (links.map (apply_update link_id nu)).map (apply_update link_id nu), ?_, ?_, ?_, ?_⟩
  · simp only [update_link, h1]
    rw [if_pos h2]
  · simp only [update_link, h1]
    rw [if_pos h2b]
  · exact find?_map_apply_update link_id nu _ h2b
  · rw [ids_map_apply_update, ids_map_apply_update]

/-- C8 witness on a one-row table. -/
theorem C8_update_idempotent_witness :
    ∃ links1 links2,
      update_link (fun s => some s) "a" "https://new/" [⟨"a", "https://old/"⟩] none
        = (links1, Except.ok ⟨"a", "https://new/"⟩, true) ∧
      update_link (fun s => some s) "a" "https://new/" links1 none
        = (links2, Except.ok ⟨"a", "https://new/"⟩, true) ∧
      fetch_link links2 "a" = some ⟨"a", "https://new/"⟩ ∧
      links2.map Link.id = [⟨"a", "https://old/"⟩].map Link.id :=
  C8_update_idempotent (fun s => some s) "a" "https://new/" "https://new/"
    [⟨"a", "https://old/"⟩] rfl (by decide)

/-- C9: a successful click insert for a key raises the count of exactly that
group of the aggregation by one, leaves every other group count unchanged,
and the aggregation of the link afterwards contains the incremented group. -/
theorem C9_record_increments_group (stats : List ClickEvent) (link_id : String)
    (r ua : Option String) :
    group_count (record_click stats link_id r ua) link_id r ua
      = group_count stats link_id r ua + 1 ∧
    (∀ id2 r2 ua2, ¬(id2 = link_id ∧ r2 = r ∧ ua2 = ua) →
      group_count (record_click stats link_id r ua) id2 r2 ua2
        = group_count stats id2 r2 ua2) ∧
    (⟨some (Int.ofNat (group_count stats link_id r ua + 1)), r, ua⟩ : CountedLinkStatistic)
      ∈ aggregate (record_click stats link_id r ua) link_id := by
  have hinc : group_count (record_click stats link_id r ua) link_id r ua
      = group_count stats link_id r ua + 1 := by
    simp [group_count, record_click]
  refine ⟨hinc, fun id2 r2 ua2 hne => ?_, ?_⟩
  · have hfalse : (link_id == id2 && (r == r2) && (ua == ua2)) = false := by
      simp only [Bool.and_eq_false_iff, beq_eq_false_iff_ne, ne_eq]
      by_cases e1 : link_id = id2 <;> by_cases e2 : r = r2 <;> by_cases e3 : ua = ua2 <;>
        simp_all
    simp [group_count, record_click, List.filter_cons, hfalse]
  · have hk : (r, ua) ∈ click_keys (record_click stats link_id r ua) link_id := by
      simp [click_keys, List.mem_dedup, record_click]
    have hmem := List.mem_map_of_mem
      (fun k : Option String × Option String =>
        (⟨some (Int.ofNat (group_count (record_click stats link_id r ua) link_id k.1 k.2)),
          k.1, k.2⟩ : CountedLinkStatistic)) hk
    rw [aggregate]
    simpa [hinc] using hmem

/-- C9 witness on the empty statistics table. -/
theorem C9_record_increments_group_witness :
    group_count (record_click [] "a" (some "r") none) "a" (some "r") none
      = group_count [] "a" (some "r") none + 1 ∧
    group_count (record_click [] "a" (some "r") none) "b" none none
      = group_count [] "b" none none ∧
    (⟨some (Int.ofNat (group_count [] "a" (some "r") none + 1)), some "r", none⟩
        : CountedLinkStatistic)
      ∈ aggregate (record_click [] "a" (some "r") none) "a" :=
  ⟨(C9_record_increments_group [] "a" (some "r") none).1,
   (C9_record_increments_group [] "a" (some "r") none).2.1 "b" none none
     (by simp),
   (C9_record_increments_group [] "a" (some "r") none).2.2⟩

/-- C4 counterexample: the value 2^32 - 1 lies in [0, 2^32) yet is not a
possible draw, because gen_range is called with the half open range
0..u32MAX, which excludes its upper bound. -/
theorem C4_full_range_counterexample :
    u32MAX < 2 ^ 32 ∧ ¬ genRangePossible 0 u32MAX u32MAX := by
  decide

/-- C4 amended: generate_id encodes the decimal text of the draw in URL safe
base64 without padding, and the set of possible draws is exactly
[0, 2^32 - 1): every 32 bit value except the maximum one. -/
theorem C4_generate_id_range_amended (n : Nat) :
    (genRangePossible 0 u32MAX n ↔ n < 2 ^ 32 - 1) ∧
    generate_id n = String.mk (b64EncodeBytes (decimalBytes n)) := by
  refine ⟨?_, rfl⟩
  have hpow : 2 ^ 32 - 1 = 4294967295 := by norm_num
  unfold genRangePossible u32MAX
  omega

/-- C5 counterexample: the possible draw 5 yields a two character id, below
the claimed lower bound of eight, and the possible draw 1000000000 yields a
fourteen character id, above the claimed upper bound of twelve. -/
theorem C5_length_counterexample :
    genRangePossible 0 u32MAX 5 ∧ (generate_id 5).length = 2 ∧
    ¬(8 ≤ (generate_id 5).length ∧ (generate_id 5).length ≤ 12) ∧
    genRangePossible 0 u32MAX 1000000000 ∧ (generate_id 1000000000).length = 14 := by
  decide

/-- C5 amended: for every possible draw the generated id is a base64url
string of between two and fourteen characters. -/
theorem C5_length_amended (n : Nat) (h : genRangePossible 0 u32MAX n) :
    2 ≤ (generate_id n).length ∧ (generate_id n).length ≤ 14 := by
  have hb : (generate_id n).length = (4 * (decimalBytes n).length + 2) / 3 := by
    have : (generate_id n).length = (b64EncodeBytes (decimalBytes n)).length := rfl
    rw [this, b64EncodeBytes_length]
  have hsmall : n < 10 ^ 10 := by
    have h2 := h.2
    unfold u32MAX at h2
    norm_num
    omega
  have hd := decimalBytes_length_bounds n hsmall
  omega

/-- C5 amended witness at the draw 5. -/
theorem C5_length_amended_witness :
    genRangePossible 0 u32MAX 5 ∧
    2 ≤ (generate_id 5).length ∧ (generate_id 5).length ≤ 14 :=
  ⟨by decide, C5_length_amended 5 (by decide)⟩

end LinkShortener
